import Mathlib

/-!
Verification of the Database Backup Monitoring service.

The repository is a React/TypeScript frontend plus SQL migrations for a
Flask backend (the backend Python services themselves are not part of the
source tree; only their SQL schema, their HTTP contract and their frontend
callers are).  Frontend logic is embedded directly from the TypeScript
source; the missing backend engine (scan orchestrator, result classifier,
stats-store adapter, scheduler) is modelled from the specification, as
flagged in the doc comment of each such definition.
-/

namespace BackupMonitor

/-- Backup mode: the two monitored backup targets, from the frontend union
type BackupMode = "d-drive" | "ibstorage" (part_006 line 5). -/
inductive Mode where
  | dDrive
  | ibStorage
deriving DecidableEq

/-- A backup record as exposed to the frontend, from interface BackupRecord
(part_006 lines 7-17). -/
structure BackupRecord where
  outletCode : String
  server : String
  status : String
  lastModified : Option String
  file : Option String
  backupsize : Option String
  scanDate : Option String
  errorDetails : Option String
  driveLetter : Option String
deriving DecidableEq

/-- Dashboard.tsx line 28: totalServers = results.length, where results is the
non-anomalous record list (data.data). -/
def totalServers (results : List BackupRecord) : Nat := results.length

/-- Dashboard.tsx lines 29-31: successCount counts records with status
"Successful". -/
def successCount (results : List BackupRecord) : Nat :=
  (results.filter fun r => decide (r.status = "Successful")).length

/-- Dashboard.tsx line 32: failedCount = totalServers - successCount. -/
def failedCount (results : List BackupRecord) : Nat :=
  totalServers results - successCount results

/-- Modelled from the spec: the closed set of result categories produced by
the Result Classifier (spec section 4.1); the classifier itself lives in the
backend services, which are missing from the source tree. -/
inductive Category where
  | successful
  | unreachable
  | noDirectory
  | noDrive
  | noValidBackupFiles
  | connectionError
  | unknownError
  | advancedDateAnomaly
deriving DecidableEq

/-- A category counts toward the success bucket exactly when it is
Successful (spec sections 4.1 and 4.2). -/
def isSuccess : Category → Bool
  | .successful => true
  | _ => false

/-- A category is the advanced-date anomaly bucket (spec section 3,
AnomalyRecord; excluded from the pass/fail tally). -/
def isAnomaly : Category → Bool
  | .advancedDateAnomaly => true
  | _ => false

/-- A category counts toward the failed bucket: neither Successful nor the
anomaly bucket (spec section 4.2: every failure category is counted as
failed; anomalies are a third bucket). -/
def isFailure (c : Category) : Bool := !(isSuccess c) && !(isAnomaly c)

/-- Modelled from the spec: the total of a completed run is the number of
outlets probed (spec section 4.2); the aggregation code is in the missing
backend services. -/
def runTotal (cs : List Category) : Nat := cs.length

/-- Modelled from the spec: success counter of a completed run. -/
def runSuccess (cs : List Category) : Nat := (cs.filter isSuccess).length

/-- Modelled from the spec: failed counter of a completed run. -/
def runFailed (cs : List Category) : Nat := (cs.filter isFailure).length

/-- Modelled from the spec: advanced-date counter of a completed run. -/
def runAdvanced (cs : List Category) : Nat := (cs.filter isAnomaly).length

/-- Reports.tsx line 71: errorCount counts records whose status is the
string "Error". -/
def reportsErrorCount (results : List BackupRecord) : Nat :=
  (results.filter fun r => decide (r.status = "Error")).length

/-- part_006 lines 170-172: errorCount counts records whose status is not
"Successful". -/
def backupsErrorCount (results : List BackupRecord) : Nat :=
  (results.filter fun r => !decide (r.status = "Successful")).length

/-- A concrete retrieved record with the documented status value "Failed"
(the only non-success status the schema stores; README database schema and
Reports.tsx line 401 both treat non-Successful as Failed). -/
def failedRow : BackupRecord :=
  { outletCode := "OUTLET001"
    server := "192.168.1.10"
    status := "Failed"
    lastModified := none
    file := none
    backupsize := none
    scanDate := some ("2026-02-21")
    errorDetails := some ("Server not Reachable")
    driveLetter := none }

/-- Scheduler configuration payload as submitted by the Settings page
(part_004 lines 72-77). -/
structure SchedulerConfig where
  intervalMinutes : Nat
  startHour : Nat
  endHour : Nat
  activeDays : List String
deriving DecidableEq

/-- Outcome of Settings.handleApply: the payload passed to
updateSchedulerConfig, if any, and the error toast shown on rejection. -/
structure ApplyResult where
  call : Option SchedulerConfig
  errorToast : Option String
deriving DecidableEq

/-- part_004 lines 65-77 (Settings.handleApply): an empty active-day set is
rejected with a toast and updateSchedulerConfig is never invoked; otherwise
the full payload is submitted. -/
def handleApply (intervalMinutes startHour endHour : Nat)
    (activeDays : List String) : ApplyResult :=
  if activeDays.length = 0 then
    { call := none, errorToast := some ("Select at least one active day") }
  else
    { call := some ⟨intervalMinutes, startHour, endHour, activeDays⟩
      errorToast := none }

/-- The configuration in effect after an apply attempt: the previous one when
no persistence call was made, otherwise the submitted payload. -/
def configAfterApply (current : SchedulerConfig)
    (intervalMinutes startHour endHour : Nat)
    (activeDays : List String) : SchedulerConfig :=
  match (handleApply intervalMinutes startHour endHour activeDays).call with
  | none => current
  | some p => p

/-- part_006 lines 237-243 (Backups.handleSync): returns the outlet list
posted to the sync endpoint, or none when the current selection is empty
(the early return on selected.size === 0); the selection Set is modelled by
its element list. -/
def handleSync (selected : List String) : Option (List String) :=
  if selected.isEmpty then none else some selected

/-- Progress snapshot held in frontend state (scanProgress in Dashboard.tsx
lines 50-56). -/
structure Progress where
  total : Nat
  completed : Nat
  success : Nat
  failed : Nat
  current : Option String
deriving DecidableEq

/-- A progress-stream event, one of the four message shapes of spec
section 4.3 and of the SSE payloads consumed in Dashboard.tsx lines 84-122. -/
inductive Event where
  | start (total : Nat)
  | progress (total completed success failed : Nat) (current : String)
  | complete (total success failed : Nat)
  | error (message : String)
deriving DecidableEq

/-- Frontend scan state touched by the SSE handler (Dashboard.tsx:
scanning, scanProgress, scanMsg, and whether the EventSource is open). -/
structure ClientScanState where
  scanning : Bool
  scanProgress : Option Progress
  scanMsg : Option String
  sourceOpen : Bool
deriving DecidableEq

/-- Dashboard.tsx lines 84-122 (es.onmessage, identical in part_006 lines
300-338): the state update applied for each parsed event.  The complete
branch sets completed to the event total; the error branch uses the
fallback message when message is empty (the JavaScript || on msg.message). -/
def onMessage (modeLabel : String) (st : ClientScanState) :
    Event → ClientScanState
  | .start t => { st with scanProgress := some ⟨t, 0, 0, 0, none⟩ }
  | .progress t c s f cur =>
      { st with scanProgress := some ⟨t, c, s, f, some cur⟩ }
  | .complete t s f =>
      { scanning := false
        scanProgress := some ⟨t, t, s, f, none⟩
        scanMsg := some (modeLabel ++ " scan completed: " ++ toString s ++
          " successful, " ++ toString f ++ " failed")
        sourceOpen := false }
  | .error message =>
      { scanning := false
        scanProgress := none
        scanMsg := some (if message = "" then modeLabel ++ " scan failed."
          else message)
        sourceOpen := false }

/-- A persisted row of D_Drive_Backup_Stat / IB_Storage_Backup_Stat, from the
SQL migrations (migration_add_ibstorage_table.sql lines 4-16,
migration_add_scandate.sql lines 27-30): both tables share this column set
and the composite primary key (OutletServer, ScanDate). -/
structure StoredRow where
  outletServer : String
  status : Option String
  lastBackupTaken : Option String
  backupFile : Option String
  duration : Option String
  backupFileSize : Option String
  scanDate : String
  errorDetails : Option String
  driveLetter : Option String
deriving DecidableEq

/-- Whether a row carries the given (OutletServer, ScanDate) composite key. -/
def keyMatches (o d : String) (x : StoredRow) : Bool :=
  decide (x.outletServer = o) && decide (x.scanDate = d)

/-- Modelled from the spec: the Stats Store adapter upsert (spec section 4.4)
of the missing backend services; a repeated upsert for an existing
(OutletServer, ScanDate) key replaces the stored row in place of adding a
second one, matching the composite primary key of the migrations. -/
def upsert (t : List StoredRow) (r : StoredRow) : List StoredRow :=
  r :: t.filter fun x => !(keyMatches r.outletServer r.scanDate x)

/-- Modelled from the spec: committing a sequence of records row by row
through the adapter upsert. -/
def upsertAll (t : List StoredRow) (rs : List StoredRow) : List StoredRow :=
  rs.foldl upsert t

/-- Number of rows of a table carrying the given composite key. -/
def keyCount (t : List StoredRow) (o d : String) : Nat :=
  (t.filter (keyMatches o d)).length

/-- The table invariant of spec section 4.4: at most one row per
(OutletServer, ScanDate) key. -/
def tableInv (t : List StoredRow) : Prop := ∀ o d, keyCount t o d ≤ 1

/-- The two per-mode tables of the store, D_Drive_Backup_Stat and
IB_Storage_Backup_Stat. -/
structure StatsStore where
  dDrive : List StoredRow
  ibStorage : List StoredRow
deriving DecidableEq

/-- The store with both tables empty. -/
def emptyStore : StatsStore := { dDrive := [], ibStorage := [] }

/-- The table of the store addressed by a mode. -/
def tableFor (s : StatsStore) : Mode → List StoredRow
  | .dDrive => s.dDrive
  | .ibStorage => s.ibStorage

/-- Modelled from the spec: an upsert routed to the table of its mode. -/
def storeUpsert (s : StatsStore) : Mode → StoredRow → StatsStore
  | .dDrive, r => { s with dDrive := upsert s.dDrive r }
  | .ibStorage, r => { s with ibStorage := upsert s.ibStorage r }

/-- Modelled from the spec: a sequence of mode-addressed upserts. -/
def storeUpsertAll (s : StatsStore) (ops : List (Mode × StoredRow)) :
    StatsStore :=
  ops.foldl (fun acc op => storeUpsert acc op.1 op.2) s

/-- The ephemeral in-memory ScanRun of spec section 3: total outlet count,
completed count, success count, failed count. -/
structure ScanRun where
  total : Nat
  completed : Nat
  success : Nat
  failed : Nat
deriving DecidableEq

/-- A freshly started run over the given number of outlets. -/
def newRun (total : Nat) : ScanRun :=
  { total := total, completed := 0, success := 0, failed := 0 }

/-- Modelled from the spec: the aggregator counter update for one classified
probe result (spec section 4.2: counts only increase; anomalies are kept out
of both the success and the failed counter). -/
def recordResult (r : ScanRun) (c : Category) : ScanRun :=
  { r with
    completed := r.completed + 1
    success := if isSuccess c then r.success + 1 else r.success
    failed := if isFailure c then r.failed + 1 else r.failed }

/-- Modelled from the spec: the orchestrator state, holding the live runs
keyed by mode (spec sections 4.2 and 9: the per-mode single-flight guard
over global run state; the backend services holding it are missing from
the source tree). -/
structure OrchState where
  runs : List (Mode × ScanRun)
deriving DecidableEq

/-- Whether a scan is in flight for the mode. -/
def modeLive (s : OrchState) (m : Mode) : Bool :=
  s.runs.any fun p => decide (p.1 = m)

/-- Modelled from the spec: StartScan (spec section 4.2).  A start request
for a mode whose scan is still live is rejected with a scan-already-running
error event and leaves the state untouched; otherwise a fresh ScanRun is
created and a start event is emitted. -/
def startScan (s : OrchState) (m : Mode) (total : Nat) : OrchState × Event :=
  if modeLive s m then (s, .error ("scan already running"))
  else ({ runs := (m, newRun total) :: s.runs }, .start total)

/-- Modelled from the spec: one probe completion reported to the aggregator
of the mode's live run. -/
def updateRun (s : OrchState) (m : Mode) (c : Category) : OrchState :=
  { runs := s.runs.map fun p =>
      if p.1 = m then (p.1, recordResult p.2 c) else p }

/-- Modelled from the spec: terminal event handling releases the mode's
single-flight lock and discards the ephemeral run (spec sections 3 and 7,
for both the complete and the error terminal). -/
def finishScan (s : OrchState) (m : Mode) : OrchState :=
  { runs := s.runs.filter fun p => !(decide (p.1 = m)) }

/-- States reachable from the idle orchestrator by start, progress and
terminal transitions. -/
inductive Reach : OrchState → Prop where
  | init : Reach ⟨[]⟩
  | start (s : OrchState) (m : Mode) (total : Nat) :
      Reach s → modeLive s m = false → Reach (startScan s m total).1
  | step (s : OrchState) (m : Mode) (c : Category) :
      Reach s → Reach (updateRun s m c)
  | finish (s : OrchState) (m : Mode) :
      Reach s → Reach (finishScan s m)

/-- Number of live runs a state holds for a mode. -/
def liveCount (s : OrchState) (m : Mode) : Nat :=
  (s.runs.filter fun p => decide (p.1 = m)).length

/-- Modelled from the spec: the progress snapshots emitted by the aggregator,
one after every probe completion (spec sections 4.2 and 4.3); each snapshot
carries the counters right after that completion and the outlet label just
processed. -/
def snapshots (r : ScanRun) : List (String × Category) → List Event
  | [] => []
  | (outlet, c) :: rest =>
    let r2 := recordResult r c
    .progress r2.total r2.completed r2.success r2.failed outlet ::
      snapshots r2 rest

/-- Modelled from the spec: the final counters of a run over the given
classified outlets. -/
def finalRun (outlets : List (String × Category)) : ScanRun :=
  outlets.foldl (fun r oc => recordResult r oc.2) (newRun outlets.length)

/-- Modelled from the spec: the full event sequence of one scan run (spec
section 4.3).  With no run-level failure the run emits start, one progress
snapshot per completion and a final complete event; a run-level failure
after k completions ends the stream with a single error event instead
(spec section 7, case c). -/
def runTrace (outlets : List (String × Category))
    (failure : Option (Nat × String)) : List Event :=
  match failure with
  | none =>
    .start outlets.length ::
      (snapshots (newRun outlets.length) outlets ++
        [.complete (finalRun outlets).total (finalRun outlets).success
          (finalRun outlets).failed])
  | some (k, msg) =>
    .start outlets.length ::
      (snapshots (newRun outlets.length) (outlets.take k) ++ [.error msg])

/-- The completed field of a progress event, none for the other shapes. -/
def completedOf : Event → Option Nat
  | .progress _ completed _ _ _ => some completed
  | _ => none

/-- Whether an event is the start shape. -/
def isStartEv : Event → Bool
  | .start _ => true
  | _ => false

/-- Whether an event is one of the two terminal shapes, complete or error. -/
def isTerminalEv : Event → Bool
  | .complete _ _ _ => true
  | .error _ => true
  | _ => false

/-- Whether an event is the progress shape. -/
def isProgressEv : Event → Bool
  | .progress _ _ _ _ _ => true
  | _ => false

/-- A backup artifact on the remote share: file name and modification
timestamp (an abstract instant, totally ordered). -/
structure Artifact where
  name : String
  mtime : Nat
deriving DecidableEq

/-- One comparison step of artifact selection: the candidate replaces the
best-so-far when it is more recent, or equally recent with a
lexicographically greater name. -/
def pickBestStep (acc : Option Artifact) (a : Artifact) : Option Artifact :=
  match acc with
  | none => some a
  | some b =>
    if b.mtime < a.mtime ∨ (b.mtime = a.mtime ∧ b.name < a.name) then some a
    else some b

/-- Modelled from the spec: selection of the backup artifact among the
matching files — the most-recently-modified one, ties broken by the
lexicographically greatest file name (spec section 4.1); the selection code
is in the missing backend services. -/
def pickBest (files : List Artifact) : Option Artifact :=
  files.foldl pickBestStep none

/-- The lexicographic dominance order used by artifact selection: later
modification time, or equal time and a name that is not greater. -/
def lexLe (a b : Artifact) : Prop :=
  a.mtime < b.mtime ∨ (a.mtime = b.mtime ∧ a.name ≤ b.name)

/-- Modelled from the spec: the valid-artifact classification rule (spec
section 4.1): a modification timestamp past the configured tolerance —
by default the end of the current calendar year — is the advanced-date
anomaly; anything else is Successful. -/
def classifyArtifact (yearEnd : Nat) (a : Artifact) : Category :=
  if yearEnd < a.mtime then .advancedDateAnomaly else .successful

/-- Modelled from the spec: the Result Classifier (spec section 4.1), applied
in rule order to one probe outcome.  Inputs: the mode (secondary = the
IBSTORAGE mode), whether the endpoint connection succeeded, whether any
candidate drive letter exists (secondary mode), whether the backup folder
exists, the listing result (a transport diagnostic or the file list), the
backup-artifact name pattern, and the anomaly tolerance.  Output: the
category together with the error detail recorded with it. -/
def classify (secondary connected driveExists folderExists : Bool)
    (listing : Except String (List Artifact))
    (matchesPat : String → Bool) (yearEnd : Nat) : Category × Option String :=
  if !connected then (.unreachable, some ("Server not Reachable"))
  else if secondary && !driveExists then
    (.noDrive, some ("IBSTORAGE drive not found"))
  else if !folderExists then (.noDirectory, some ("Folder not found"))
  else
    match listing with
    | .error diag => (.connectionError, some diag)
    | .ok files =>
      match pickBest (files.filter fun a => matchesPat a.name) with
      | none => (.noValidBackupFiles, some ("No Valid Backup Files"))
      | some a => (classifyArtifact yearEnd a, none)

/-- Whether the pattern occurs in the character list starting at its head. -/
def startsWith : List Char → List Char → Bool
  | _, [] => true
  | [], _ :: _ => false
  | a :: s, b :: p => a == b && startsWith s p

/-- Whether the pattern occurs anywhere in the character list. -/
def hasSub : List Char → List Char → Bool
  | [], p => startsWith [] p
  | a :: t, p => startsWith (a :: t) p || hasSub t p

/-- The JavaScript String.includes test used by the status badge. -/
def containsSub (s sub : String) : Bool := hasSub s.data sub.data

/-- part_006 lines 19-43 (getStatusBadge): the badge label derived from a
record, by substring matching over the stored error details. -/
def getStatusBadge (r : BackupRecord) : String :=
  if r.status = "Successful" then "Successful"
  else
    let details := r.errorDetails.getD ""
    if containsSub details ("Server not Reachable") then "Unreachable"
    else if containsSub details ("Folder not found") ||
        containsSub details ("No such file or directory") then "No Directory"
    else if containsSub details ("IBSTORAGE drive not found") then "No Drive"
    else if containsSub details ("No Valid Backup Files") then "No Backup"
    else if containsSub details ("SMB Protocol Error") ||
        containsSub details ("SMBConnectionClosed") then "Connection Error"
    else "Error"

/-- A concrete stored row used to exercise the adapter on explicit input. -/
def rowToday : StoredRow :=
  { outletServer := "OUTLET001"
    status := some ("Failed")
    lastBackupTaken := none
    backupFile := none
    duration := some ("1.2s")
    backupFileSize := none
    scanDate := "2026-02-21"
    errorDetails := some ("Server not Reachable")
    driveLetter := none }

/-- A re-scan row for the same (OutletServer, ScanDate) key as rowToday,
with fresh contents. -/
def rowTodayRescan : StoredRow :=
  { outletServer := "OUTLET001"
    status := some ("Successful")
    lastBackupTaken := some ("2026-02-21T01:00:00")
    backupFile := some ("OUTLET001_backup.bak")
    duration := some ("0.8s")
    backupFileSize := some ("2.45 GB")
    scanDate := "2026-02-21"
    errorDetails := none
    driveLetter := none }

/-- The constantly-true artifact name pattern, for concrete instantiation of
the classifier. -/
def anyName : String → Bool := fun _ => true

/-- The store invariant: both per-mode tables satisfy the composite-key
uniqueness invariant. -/
def storeInv (s : StatsStore) : Prop :=
  tableInv s.dDrive ∧ tableInv s.ibStorage

/-! ## Shared lemmas -/

theorem length_filter_split {α : Type} (p : α → Bool) (l : List α) :
    (l.filter p).length + (l.filter fun a => !(p a)).length = l.length := by
  induction l with
  | nil => rfl
  | cons a l ih => cases h : p a <;> simp [List.filter, h] <;> omega

theorem run_partition (cs : List Category) :
    runSuccess cs + runFailed cs + runAdvanced cs = runTotal cs := by
  induction cs with
  | nil => rfl
  | cons c cs ih =>
    cases c <;>
      simp only [runSuccess, runFailed, runAdvanced, runTotal, List.filter,
        isSuccess, isFailure, isAnomaly, Bool.not_true, Bool.not_false,
        Bool.and_self, Bool.true_and, Bool.false_and, Bool.and_true,
        Bool.and_false, List.length_cons] at * <;> omega

/-! ## Claim theorems -/

/-- Claim C1: for every completed scan run the counters partition the total —
success + failed + advanced = total, anomaly records lie in neither the
success nor the failed bucket, and over the non-anomalous records the
failed count is exactly the count of records whose status is not
Successful (so failed = total - success there, as the Dashboard computes
it). -/
theorem scan_counts_partition (cs : List Category)
    (results : List BackupRecord) :
    runSuccess cs + runFailed cs + runAdvanced cs = runTotal cs
    ∧ runFailed cs = runTotal cs - runAdvanced cs - runSuccess cs
    ∧ ((cs.filter isAnomaly).all fun c => !(isSuccess c) && !(isFailure c))
        = true
    ∧ successCount results + failedCount results = totalServers results
    ∧ failedCount results =
        (results.filter fun r => !(decide (r.status = "Successful"))).length
    := by
  have hpart := run_partition cs
  have hsplit := length_filter_split
    (fun r => decide (r.status = "Successful")) results
  have hle : successCount results ≤ totalServers results :=
    List.length_filter_le _ _
  refine ⟨hpart, by omega, ?_, ?_, ?_⟩
  · rw [List.all_eq_true]
    intro c hc
    have hmem := List.mem_filter.mp hc
    cases h : c <;> simp_all [isAnomaly, isSuccess, isFailure]
  · simp only [failedCount]
    omega
  · simp only [failedCount, totalServers, successCount] at *
    omega

/-- Claim C7: a SchedulerConfig update with an empty active-weekday set is
rejected with an error toast before any persistence call is made and the
previous configuration stays in effect; a non-empty update is submitted
for persistence with exactly the chosen fields. -/
theorem scheduler_config_empty_days_rejected (current : SchedulerConfig)
    (i sh eh : Nat) (days : List String) :
    (days = [] →
      (handleApply i sh eh days).call = none
      ∧ (handleApply i sh eh days).errorToast =
          some ("Select at least one active day")
      ∧ configAfterApply current i sh eh days = current)
    ∧ (days ≠ [] →
      (handleApply i sh eh days).call = some ⟨i, sh, eh, days⟩) := by
  constructor
  · intro h
    subst h
    exact ⟨rfl, rfl, rfl⟩
  · intro h
    have hlen : days.length ≠ 0 := by
      simpa [List.length_eq_zero] using h
    simp [handleApply, hlen]

/-- Claim C7 witness: the rejection at the empty-day update and the
submission of a one-day update, on concrete inputs. -/
theorem scheduler_config_empty_days_rejected_witness :
    (handleApply 60 8 0 []).call = none
    ∧ configAfterApply ⟨60, 8, 0, ["Mon"]⟩ 60 8 0 [] = ⟨60, 8, 0, ["Mon"]⟩
    ∧ (handleApply 60 8 0 ["Mon"]).call = some ⟨60, 8, 0, ["Mon"]⟩ :=
  ⟨((scheduler_config_empty_days_rejected ⟨60, 8, 0, ["Mon"]⟩ 60 8 0 []).1
      rfl).1,
   ((scheduler_config_empty_days_rejected ⟨60, 8, 0, ["Mon"]⟩ 60 8 0 []).1
      rfl).2.2,
   (scheduler_config_empty_days_rejected ⟨60, 8, 0, ["Mon"]⟩ 60 8 0
      ["Mon"]).2 (by decide)⟩

/-- Claim C8 (code bug witness): statuses are the two documented values, yet
the Reports page counts failed records by comparing against the string
"Error", so a retrieved set holding one Failed record reports zero errors
while the Backups page — and the claim — count one non-Successful record. -/
theorem reports_error_count_bug :
    failedRow.status = "Failed"
    ∧ reportsErrorCount [failedRow] = 0
    ∧ backupsErrorCount [failedRow] = 1 := by
  refine ⟨rfl, ?_, ?_⟩ <;> decide

/-- Claim C9: receiving a complete event sets the displayed completed count
to the event's total field, for every prior client state — at termination
the progress display shows completed = total no matter which progress
events were observed. -/
theorem complete_event_sets_completed_to_total (modeLabel : String)
    (st : ClientScanState) (t s f : Nat) :
    (onMessage modeLabel st (.complete t s f)).scanProgress =
      some ⟨t, t, s, f, none⟩
    ∧ (onMessage modeLabel st (.complete t s f)).scanning = false :=
  ⟨rfl, rfl⟩

/-- Claim C10: the sync operation is never issued with an empty outlet
subset — handleSync returns without calling the API when the selection is
empty, and any issued call carries the non-empty selection itself. -/
theorem sync_requires_nonempty_selection (selected outs : List String) :
    (handleSync selected = some outs → outs = selected ∧ outs ≠ [])
    ∧ (selected = [] → handleSync selected = none) := by
  constructor
  · intro h
    by_cases he : selected = []
    · subst he
      simp [handleSync] at h
    · have hne : selected.isEmpty = false := by
        simpa [List.isEmpty_iff] using he
      simp only [handleSync, hne, Bool.false_eq_true, if_false,
        Option.some.injEq] at h
      subst h
      exact ⟨rfl, he⟩
  · intro he
    subst he
    rfl

/-- Claim C10 witness: a singleton selection is forwarded unchanged and is
non-empty; the empty selection issues no call. -/
theorem sync_requires_nonempty_selection_witness :
    (["OUTLET001"] ≠ ([] : List String)) ∧ handleSync [] = none :=
  ⟨((sync_requires_nonempty_selection ["OUTLET001"] ["OUTLET001"]).1 rfl).2,
   (sync_requires_nonempty_selection [] []).2 rfl⟩

theorem keyMatches_iff (o d : String) (x : StoredRow) :
    keyMatches o d x = true ↔ x.outletServer = o ∧ x.scanDate = d := by
  simp [keyMatches]

theorem filter_key_after_remove_same (t : List StoredRow) (r : StoredRow) :
    (t.filter fun x => !(keyMatches r.outletServer r.scanDate x)).filter
      (keyMatches r.outletServer r.scanDate) = [] := by
  induction t with
  | nil => rfl
  | cons x t ih =>
    cases h : keyMatches r.outletServer r.scanDate x <;>
      simp [List.filter_cons, h, ih]

theorem keyCount_remove_other (t : List StoredRow) (r : StoredRow)
    (o d : String) (h : ¬(r.outletServer = o ∧ r.scanDate = d)) :
    keyCount (t.filter fun x => !(keyMatches r.outletServer r.scanDate x)) o d
      = keyCount t o d := by
  induction t with
  | nil => rfl
  | cons x t ih =>
    simp only [keyCount] at ih ⊢
    cases hxr : keyMatches r.outletServer r.scanDate x with
    | true =>
      have hx : keyMatches o d x = false := by
        cases hx2 : keyMatches o d x
        · rfl
        · exfalso
          rcases (keyMatches_iff _ _ x).mp hxr with ⟨h3, h4⟩
          rcases (keyMatches_iff o d x).mp hx2 with ⟨h1, h2⟩
          exact h ⟨by rw [← h3, h1], by rw [← h4, h2]⟩
      rw [List.filter_cons_of_neg (by simp [hxr]),
        List.filter_cons_of_neg (by simp [hx])]
      exact ih
    | false =>
      rw [List.filter_cons_of_pos (by simp [hxr])]
      cases hx : keyMatches o d x with
      | true =>
        rw [List.filter_cons_of_pos (by simp [hx]),
          List.filter_cons_of_pos (by simp [hx]), List.length_cons,
          List.length_cons, ih]
      | false =>
        rw [List.filter_cons_of_neg (by simp [hx]),
          List.filter_cons_of_neg (by simp [hx])]
        exact ih

theorem keyCount_upsert (t : List StoredRow) (r : StoredRow) (o d : String) :
    keyCount (upsert t r) o d =
      if r.outletServer = o ∧ r.scanDate = d then 1 else keyCount t o d := by
  by_cases h : r.outletServer = o ∧ r.scanDate = d
  · rcases h with ⟨ho, hd⟩
    subst ho
    subst hd
    rw [if_pos ⟨rfl, rfl⟩]
    have hself : keyMatches r.outletServer r.scanDate r = true := by
      simp [keyMatches]
    simp [keyCount, upsert, List.filter_cons, hself,
      filter_key_after_remove_same t r]
  · rw [if_neg h]
    have hr : keyMatches o d r = false := by
      cases hkm : keyMatches o d r
      · rfl
      · exact absurd ((keyMatches_iff o d r).mp hkm) h
    have h2 := keyCount_remove_other t r o d h
    simp only [keyCount, upsert, List.filter_cons, hr] at *
    simpa using h2

theorem tableInv_nil : tableInv [] := by
  intro o d
  simp [keyCount]

theorem tableInv_upsert (t : List StoredRow) (r : StoredRow) :
    tableInv t → tableInv (upsert t r) := by
  intro h o d
  rw [keyCount_upsert]
  split
  · exact le_refl 1
  · exact h o d

theorem storeInv_upsert (s : StatsStore) (m : Mode) (r : StoredRow) :
    storeInv s → storeInv (storeUpsert s m r) := by
  intro hs
  cases m
  · exact ⟨tableInv_upsert _ _ hs.1, hs.2⟩
  · exact ⟨hs.1, tableInv_upsert _ _ hs.2⟩

theorem storeInv_upsertAll (ops : List (Mode × StoredRow)) :
    ∀ s, storeInv s → storeInv (storeUpsertAll s ops) := by
  induction ops with
  | nil => intro s hs; exact hs
  | cons op ops ih =>
    intro s hs
    exact ih _ (storeInv_upsert s op.1 op.2 hs)

/-- Claim C2: the stats store holds exactly one row per (OutletServer,
ScanDate) key — after any sequence of mode-addressed upserts from the empty
store, both the D-Drive table and the IBSTORAGE table carry at most one row
per key; and an upsert for a key already present replaces the stored row
(the table afterwards has exactly one row for that key, and it is the new
record). -/
theorem upsert_replaces_never_duplicates (ops : List (Mode × StoredRow))
    (m : Mode) (o d : String) (t : List StoredRow) (r : StoredRow) :
    keyCount (tableFor (storeUpsertAll emptyStore ops) m) o d ≤ 1
    ∧ keyCount (upsert t r) r.outletServer r.scanDate = 1
    ∧ (upsert t r).head? = some r := by
  refine ⟨?_, ?_, rfl⟩
  · have hinv := storeInv_upsertAll ops emptyStore ⟨tableInv_nil, tableInv_nil⟩
    cases m
    · exact hinv.1 o d
    · exact hinv.2 o d
  · rw [keyCount_upsert]
    exact if_pos ⟨rfl, rfl⟩

theorem liveCount_map_update (l : List (Mode × ScanRun)) (m m2 : Mode)
    (c : Category) :
    ((l.map fun p => if p.1 = m then (p.1, recordResult p.2 c) else p).filter
      fun p => decide (p.1 = m2)).length =
    (l.filter fun p => decide (p.1 = m2)).length := by
  induction l with
  | nil => rfl
  | cons x l ih =>
    by_cases hx : x.1 = m <;> by_cases h2 : x.1 = m2
    · have hmm : m = m2 := hx.symm.trans h2
      subst hmm
      simp [hx, List.filter_cons, ih]
    · have hmm : ¬ m = m2 := fun he => h2 (hx.trans he)
      simp [hx, h2, hmm, List.filter_cons, ih]
    · have hmm : ¬ m2 = m := fun he => hx (h2.trans he)
      simp [hx, h2, hmm, List.filter_cons, ih]
    · simp [hx, h2, List.filter_cons, ih]

theorem liveCount_zero_of_not_live (s : OrchState) (m : Mode)
    (h : modeLive s m = false) : liveCount s m = 0 := by
  simp only [modeLive, List.any_eq_false] at h
  simp only [liveCount, List.length_eq_zero, List.filter_eq_nil_iff]
  exact h

theorem reach_single_flight (s : OrchState) (hs : Reach s) :
    ∀ m2, liveCount s m2 ≤ 1 := by
  induction hs with
  | init => intro m2; simp [liveCount]
  | start s1 m1 total hr hlive ih =>
    intro m2
    have hstate : (startScan s1 m1 total).1 = ⟨(m1, newRun total) :: s1.runs⟩
      := by simp [startScan, hlive]
    rw [hstate]
    by_cases hm : m1 = m2
    · subst hm
      have hzero := liveCount_zero_of_not_live s1 m1 hlive
      simp only [liveCount] at hzero
      simp [liveCount, List.filter_cons, hzero]
    · simpa [liveCount, List.filter_cons, hm] using ih m2
  | step s1 m1 c hr ih =>
    intro m2
    simp only [liveCount, updateRun]
    rw [liveCount_map_update s1.runs m1 m2 c]
    exact ih m2
  | finish s1 m1 hr ih =>
    intro m2
    refine le_trans ?_ (ih m2)
    simp only [liveCount, finishScan]
    exact List.Sublist.length_le
      (List.Sublist.filter _ (List.filter_sublist _))

/-- Claim C3: in every reachable orchestrator state at most one scan per
mode is live, and a StartScan request for a mode whose scan is still live
returns the scan-already-running error event with the state unchanged — no
second ScanRun is created and the counters of the run in progress are
untouched. -/
theorem second_start_scan_rejected (s : OrchState) (m : Mode) (total : Nat)
    (hs : Reach s) (hl : modeLive s m = true) :
    startScan s m total = (s, Event.error ("scan already running"))
    ∧ liveCount s m ≤ 1 := by
  refine ⟨?_, reach_single_flight s hs m⟩
  simp [startScan, hl]

/-- Claim C3 witness: starting a D-Drive scan from the idle orchestrator
and then requesting a second one is rejected with the error event, the
state unchanged. -/
theorem second_start_scan_rejected_witness :
    startScan (startScan ⟨[]⟩ Mode.dDrive 3).1 Mode.dDrive 5
      = ((startScan ⟨[]⟩ Mode.dDrive 3).1,
          Event.error ("scan already running"))
    ∧ liveCount (startScan ⟨[]⟩ Mode.dDrive 3).1 Mode.dDrive ≤ 1 :=
  second_start_scan_rejected (startScan ⟨[]⟩ Mode.dDrive 3).1 Mode.dDrive 5
    (Reach.start ⟨[]⟩ Mode.dDrive 3 Reach.init rfl) rfl

theorem snapshots_completedOf (cs : List (String × Category)) :
    ∀ r : ScanRun, (snapshots r cs).filterMap completedOf =
      List.range' (r.completed + 1) cs.length := by
  induction cs with
  | nil => intro r; rfl
  | cons oc rest ih =>
    intro r
    obtain ⟨outlet, c⟩ := oc
    simp [snapshots, completedOf, recordResult, ih, List.range'_succ]

theorem chainLe_range' (n : Nat) : ∀ s : Nat,
    List.Chain' (fun a b => a ≤ b) (List.range' s n) := by
  induction n with
  | zero => intro s; simp
  | succ k ih =>
    intro s
    rw [List.range'_succ]
    refine List.chain'_cons'.mpr ⟨?_, ih (s + 1)⟩
    intro y hy
    cases k with
    | zero => simp at hy
    | succ k2 =>
      rw [List.range'_succ] at hy
      simp at hy
      omega

theorem snapshots_all_progress (cs : List (String × Category)) :
    ∀ r : ScanRun, ∀ e ∈ snapshots r cs, isProgressEv e = true := by
  induction cs with
  | nil =>
    intro r e he
    simp [snapshots] at he
  | cons oc rest ih =>
    intro r e he
    obtain ⟨outlet, c⟩ := oc
    simp only [snapshots, List.mem_cons] at he
    rcases he with rfl | he
    · rfl
    · exact ih _ e he

theorem trace_shape (n : Nat) (mid : List Event) (term : Event)
    (hmid : ∀ e ∈ mid, isProgressEv e = true)
    (hterm : isTerminalEv term = true)
    (hcomp : completedOf term = none) :
    (Event.start n :: (mid ++ [term])).head? = some (.start n)
    ∧ (Event.start n :: (mid ++ [term])).countP isStartEv = 1
    ∧ (Event.start n :: (mid ++ [term])).countP isTerminalEv = 1
    ∧ (∃ e, (Event.start n :: (mid ++ [term])).getLast? = some e
        ∧ isTerminalEv e = true)
    ∧ (Event.start n :: (mid ++ [term])).filterMap completedOf
        = mid.filterMap completedOf := by
  have hs0 : mid.countP isStartEv = 0 := by
    rw [List.countP_eq_zero]
    intro e he
    have h2 := hmid e he
    cases e <;> simp_all [isProgressEv, isStartEv]
  have ht0 : mid.countP isTerminalEv = 0 := by
    rw [List.countP_eq_zero]
    intro e he
    have h2 := hmid e he
    cases e <;> simp_all [isProgressEv, isTerminalEv]
  have htns : isStartEv term = false := by
    cases term <;> simp_all [isTerminalEv, isStartEv]
  refine ⟨rfl, ?_, ?_, ?_, ?_⟩
  · have hhead : isStartEv (Event.start n) = true := rfl
    simp [List.countP_cons, List.countP_append, hs0, htns, hhead]
  · have hhead : isTerminalEv (Event.start n) = false := rfl
    simp [List.countP_cons, List.countP_append, ht0, hterm, hhead]
  · exact ⟨term,
      by rw [show Event.start n :: (mid ++ [term])
          = (Event.start n :: mid) ++ [term] from rfl, List.getLast?_concat],
      hterm⟩
  · rw [List.filterMap_cons_none (by rfl), List.filterMap_append]
    simp [hcomp]

/-- Claim C4: every event sequence produced by one scan run starts with a
single start event, continues with progress events whose completed field is
monotonically non-decreasing, and ends with exactly one terminal event —
complete, or error for a run-level failure — after which the sequence
holds nothing further. -/
theorem scan_trace_wellformed (outlets : List (String × Category))
    (failure : Option (Nat × String)) :
    (runTrace outlets failure).head? = some (.start outlets.length)
    ∧ (runTrace outlets failure).countP isStartEv = 1
    ∧ (runTrace outlets failure).countP isTerminalEv = 1
    ∧ (∃ e, (runTrace outlets failure).getLast? = some e
        ∧ isTerminalEv e = true)
    ∧ List.Chain' (fun a b => a ≤ b)
        ((runTrace outlets failure).filterMap completedOf) := by
  cases failure with
  | none =>
    have h := trace_shape outlets.length
      (snapshots (newRun outlets.length) outlets)
      (.complete (finalRun outlets).total (finalRun outlets).success
        (finalRun outlets).failed)
      (snapshots_all_progress outlets _) rfl rfl
    refine ⟨h.1, h.2.1, h.2.2.1, h.2.2.2.1, ?_⟩
    have h6 : (runTrace outlets none).filterMap completedOf =
        (snapshots (newRun outlets.length) outlets).filterMap completedOf :=
      h.2.2.2.2
    rw [h6, snapshots_completedOf outlets (newRun outlets.length)]
    exact chainLe_range' _ _
  | some p =>
    obtain ⟨k, msg⟩ := p
    have h := trace_shape outlets.length
      (snapshots (newRun outlets.length) (outlets.take k)) (.error msg)
      (snapshots_all_progress (outlets.take k) _) rfl rfl
    refine ⟨h.1, h.2.1, h.2.2.1, h.2.2.2.1, ?_⟩
    have h6 : (runTrace outlets (some (k, msg))).filterMap completedOf =
        (snapshots (newRun outlets.length)
          (outlets.take k)).filterMap completedOf :=
      h.2.2.2.2
    rw [h6, snapshots_completedOf (outlets.take k) (newRun outlets.length)]
    exact chainLe_range' _ _

/-- Claim C5: the classifier applies its rules in order — connection failure
is Unreachable before anything else; in the secondary mode a missing drive
is NoDrive and this is checked before folder existence, so a missing drive
is never reported as NoDirectory; a missing folder is NoDirectory; a folder
with no matching artifact is NoValidBackupFiles; a mid-listing transport
error is ConnectionError with the raw diagnostic kept as error detail.  The
status badge derived in the frontend maps the corresponding stored details
back to the same labels. -/
theorem classifier_rule_order (secondary connected driveExists folderExists :
      Bool) (listing : Except String (List Artifact)) (diag : String)
    (files : List Artifact) (matchesPat : String → Bool) (yearEnd : Nat)
    (r : BackupRecord) :
    (connected = false →
      classify secondary connected driveExists folderExists listing
          matchesPat yearEnd
        = (.unreachable, some ("Server not Reachable")))
    ∧ (connected = true → secondary = true → driveExists = false →
      classify secondary connected driveExists folderExists listing
          matchesPat yearEnd
        = (.noDrive, some ("IBSTORAGE drive not found")))
    ∧ (connected = true → (secondary = true → driveExists = true) →
        folderExists = false →
      classify secondary connected driveExists folderExists listing
          matchesPat yearEnd
        = (.noDirectory, some ("Folder not found")))
    ∧ (connected = true → (secondary = true → driveExists = true) →
        folderExists = true →
      classify secondary connected driveExists folderExists (.error diag)
          matchesPat yearEnd
        = (.connectionError, some diag))
    ∧ (connected = true → (secondary = true → driveExists = true) →
        folderExists = true →
        (files.filter fun a => matchesPat a.name) = [] →
      classify secondary connected driveExists folderExists (.ok files)
          matchesPat yearEnd
        = (.noValidBackupFiles, some ("No Valid Backup Files")))
    ∧ (r.status ≠ "Successful" →
        r.errorDetails = some ("IBSTORAGE drive not found") →
        getStatusBadge r = "No Drive")
    ∧ (r.status ≠ "Successful" →
        r.errorDetails = some ("Server not Reachable") →
        getStatusBadge r = "Unreachable") := by
  refine ⟨?_, ?_, ?_, ?_, ?_, ?_, ?_⟩
  · intro h
    subst h
    simp [classify]
  · intro h1 h2 h3
    subst h1
    subst h2
    subst h3
    simp [classify]
  · intro h1 hsd h3
    subst h1
    subst h3
    cases secondary with
    | false => simp [classify]
    | true =>
      have hd : driveExists = true := hsd rfl
      subst hd
      simp [classify]
  · intro h1 hsd h3
    subst h1
    subst h3
    cases secondary with
    | false => simp [classify]
    | true =>
      have hd : driveExists = true := hsd rfl
      subst hd
      simp [classify]
  · intro h1 hsd h3 hf
    subst h1
    subst h3
    cases secondary with
    | false => simp [classify, hf, pickBest]
    | true =>
      have hd : driveExists = true := hsd rfl
      subst hd
      simp [classify, hf, pickBest]
  · intro hst hdet
    simp only [getStatusBadge, if_neg hst, hdet]
    decide
  · intro hst hdet
    simp only [getStatusBadge, if_neg hst, hdet]
    decide

/-- Claim C5 witness: each classifier rule and badge lookup exercised at a
concrete probe outcome; in particular a secondary-mode probe with the drive
missing and the folder also missing is classified NoDrive, not
NoDirectory. -/
theorem classifier_rule_order_witness :
    classify true false true true (.ok []) anyName 2026
      = (.unreachable, some ("Server not Reachable"))
    ∧ classify true true false false (.ok []) anyName 2026
      = (.noDrive, some ("IBSTORAGE drive not found"))
    ∧ classify false true false false (.ok []) anyName 2026
      = (.noDirectory, some ("Folder not found"))
    ∧ classify false true false true (.error ("SMB Protocol Error"))
        anyName 2026
      = (.connectionError, some ("SMB Protocol Error"))
    ∧ classify false true false true (.ok []) anyName 2026
      = (.noValidBackupFiles, some ("No Valid Backup Files"))
    ∧ getStatusBadge
        { failedRow with errorDetails := some ("IBSTORAGE drive not found") }
      = "No Drive"
    ∧ getStatusBadge failedRow = "Unreachable" :=
  ⟨(classifier_rule_order true false true true (.ok []) ("SMB Protocol Error")
      [] anyName 2026 failedRow).1 rfl,
   (classifier_rule_order true true false false (.ok [])
      ("SMB Protocol Error") [] anyName 2026 failedRow).2.1 rfl rfl rfl,
   (classifier_rule_order false true false false (.ok [])
      ("SMB Protocol Error") [] anyName 2026 failedRow).2.2.1 rfl
      (fun h => nomatch h) rfl,
   (classifier_rule_order false true false true (.ok [])
      ("SMB Protocol Error") [] anyName 2026 failedRow).2.2.2.1 rfl
      (fun h => nomatch h) rfl,
   (classifier_rule_order false true false true (.ok [])
      ("SMB Protocol Error") [] anyName 2026 failedRow).2.2.2.2.1 rfl
      (fun h => nomatch h) rfl rfl,
   (classifier_rule_order false true false true (.ok [])
      ("SMB Protocol Error") [] anyName 2026
      { failedRow with errorDetails := some ("IBSTORAGE drive not found") }
      ).2.2.2.2.2.1 (by decide) rfl,
   (classifier_rule_order false true false true (.ok [])
      ("SMB Protocol Error") [] anyName 2026 failedRow).2.2.2.2.2.2
      (by decide) rfl⟩

theorem lexLe_refl (a : Artifact) : lexLe a a := Or.inr ⟨rfl, le_refl _⟩

theorem lexLe_trans {a b c : Artifact} (h1 : lexLe a b) (h2 : lexLe b c) :
    lexLe a c := by
  rcases h1 with h1 | ⟨he1, hn1⟩
  · rcases h2 with h2 | ⟨he2, hn2⟩
    · exact Or.inl (lt_trans h1 h2)
    · exact Or.inl (lt_of_lt_of_le h1 (le_of_eq he2))
  · rcases h2 with h2 | ⟨he2, hn2⟩
    · exact Or.inl (lt_of_le_of_lt (le_of_eq he1) h2)
    · exact Or.inr ⟨he1.trans he2, le_trans hn1 hn2⟩

theorem pickBest_go (l : List Artifact) :
    ∀ b : Artifact, ∃ m, l.foldl pickBestStep (some b) = some m
      ∧ (m = b ∨ m ∈ l) ∧ lexLe b m ∧ ∀ y ∈ l, lexLe y m := by
  induction l with
  | nil =>
    intro b
    exact ⟨b, rfl, Or.inl rfl, lexLe_refl b, by simp⟩
  | cons a l ih =>
    intro b
    by_cases h : b.mtime < a.mtime ∨ (b.mtime = a.mtime ∧ b.name < a.name)
    · obtain ⟨m, hm, hmem, hb, hall⟩ := ih a
      have hba : lexLe b a := by
        rcases h with h | ⟨he, hn⟩
        · exact Or.inl h
        · exact Or.inr ⟨he, le_of_lt hn⟩
      refine ⟨m, ?_, ?_, lexLe_trans hba hb, ?_⟩
      · rw [List.foldl_cons]
        have hstep : pickBestStep (some b) a = some a := by
          simp only [pickBestStep]
          rw [if_pos h]
        rw [hstep]
        exact hm
      · rcases hmem with h1 | h1
        · exact Or.inr (by rw [h1]; exact List.mem_cons_self a l)
        · exact Or.inr (List.mem_cons_of_mem a h1)
      · intro y hy
        rcases List.mem_cons.mp hy with rfl | hy2
        · exact hb
        · exact hall y hy2
    · obtain ⟨m, hm, hmem, hb, hall⟩ := ih b
      have hab : lexLe a b := by
        push_neg at h
        rcases h.1.lt_or_eq with hlt | heq
        · exact Or.inl hlt
        · exact Or.inr ⟨heq, h.2 heq.symm⟩
      refine ⟨m, ?_, ?_, hb, ?_⟩
      · rw [List.foldl_cons]
        have hstep : pickBestStep (some b) a = some b := by
          simp only [pickBestStep]
          rw [if_neg h]
        rw [hstep]
        exact hm
      · rcases hmem with h1 | h1
        · exact Or.inl h1
        · exact Or.inr (List.mem_cons_of_mem a h1)
      · intro y hy
        rcases List.mem_cons.mp hy with rfl | hy2
        · exact lexLe_trans hab hb
        · exact hall y hy2

/-- Claim C6: a valid artifact is classified AdvancedDateAnomaly exactly
when its modification timestamp lies past the configured tolerance — by
default the end of the current calendar year — and Successful otherwise;
and the artifact picked among the matching files is one of them, carries
the greatest modification time, and on ties the lexicographically greatest
name. -/
theorem artifact_selection_and_anomaly (yearEnd : Nat) (a m : Artifact)
    (files : List Artifact) :
    (classifyArtifact yearEnd a = .advancedDateAnomaly ↔ yearEnd < a.mtime)
    ∧ (classifyArtifact yearEnd a = .successful ↔ a.mtime ≤ yearEnd)
    ∧ (files ≠ [] → (pickBest files).isSome = true)
    ∧ (pickBest files = some m →
        m ∈ files
        ∧ (files.all fun y =>
            decide (y.mtime ≤ m.mtime ∧ (y.mtime = m.mtime →
              y.name ≤ m.name))) = true) := by
  refine ⟨?_, ?_, ?_, ?_⟩
  · by_cases h : yearEnd < a.mtime <;> simp [classifyArtifact, h]
  · by_cases h : yearEnd < a.mtime
    · simp [classifyArtifact, h]
    · simp [classifyArtifact, h]
      omega
  · intro hne
    obtain ⟨a0, as, rfl⟩ := List.exists_cons_of_ne_nil hne
    obtain ⟨m0, hm0, hmem0, hb0, hall0⟩ := pickBest_go as a0
    have hpb : pickBest (a0 :: as) = some m0 := by
      simpa [pickBest, pickBestStep] using hm0
    simp [hpb]
  · intro hpm
    cases files with
    | nil => simp [pickBest] at hpm
    | cons a0 as =>
      obtain ⟨m0, hm0, hmem, hb, hall⟩ := pickBest_go as a0
      have hpb : pickBest (a0 :: as) = some m0 := by
        simpa [pickBest, pickBestStep] using hm0
      have hmm : m0 = m := Option.some.inj (hpb.symm.trans hpm)
      subst hmm
      constructor
      · rcases hmem with h1 | h1
        · rw [h1]; exact List.mem_cons_self a0 as
        · exact List.mem_cons_of_mem a0 h1
      · rw [List.all_eq_true]
        intro y hy
        rw [decide_eq_true_eq]
        have hyle : lexLe y m0 := by
          rcases List.mem_cons.mp hy with rfl | hy2
          · exact hb
          · exact hall y hy2
        rcases hyle with h | ⟨he, hn⟩
        · exact ⟨le_of_lt h, fun heq => (Nat.lt_irrefl _ (heq ▸ h)).elim⟩
        · exact ⟨le_of_eq he, fun _ => hn⟩

/-- Claim C6 witness: a file stamped past year-end is the anomaly; on a
concrete two-file listing the picked artifact is the more recent one and
is a member of the listing. -/
theorem artifact_selection_and_anomaly_witness :
    classifyArtifact 2026 (Artifact.mk ("FULL_2028.bak") 2028)
      = Category.advancedDateAnomaly
    ∧ (pickBest [Artifact.mk ("A.bak") 5, Artifact.mk ("B.bak") 7]).isSome
        = true
    ∧ Artifact.mk ("B.bak") 7
        ∈ [Artifact.mk ("A.bak") 5, Artifact.mk ("B.bak") 7] :=
  ⟨(artifact_selection_and_anomaly 2026 ⟨"FULL_2028.bak", 2028⟩ ⟨"B.bak", 7⟩
      [⟨"A.bak", 5⟩, ⟨"B.bak", 7⟩]).1.mpr (by decide),
   (artifact_selection_and_anomaly 2026 ⟨"FULL_2028.bak", 2028⟩ ⟨"B.bak", 7⟩
      [⟨"A.bak", 5⟩, ⟨"B.bak", 7⟩]).2.2.1 (by decide),
   ((artifact_selection_and_anomaly 2026 ⟨"FULL_2028.bak", 2028⟩ ⟨"B.bak", 7⟩
      [⟨"A.bak", 5⟩, ⟨"B.bak", 7⟩]).2.2.2 (by decide)).1⟩

end BackupMonitor
